import Mathlib

/-!
Formal model of the URL validation / normalization utilities and the mock
analysis selectors of the SEO-Analyzer repository (`src/utils/index.ts`,
`src/api/mockData.ts` and the in-component `analyzeUrl` of the single-file
app), together with proofs of the specified properties.

JavaScript strings are modelled as Lean `String`s viewed through their
character lists; the JavaScript primitives the source uses (`trim`,
`startsWith`, `new URL`) are modelled explicitly below.
-/

/-- Characters removed by JavaScript `String.prototype.trim` (ECMA-262
WhiteSpace and LineTerminator code points). -/
def jsWhitespace (c : Char) : Bool :=
  c = ' ' || c = '\t' || c = '\n' || c = '\r' ||
  c = Char.ofNat 0x0b || c = Char.ofNat 0x0c || c = Char.ofNat 0xa0 ||
  c = Char.ofNat 0x1680 || (Char.ofNat 0x2000 ≤ c && c ≤ Char.ofNat 0x200a) ||
  c = Char.ofNat 0x2028 || c = Char.ofNat 0x2029 || c = Char.ofNat 0x202f ||
  c = Char.ofNat 0x205f || c = Char.ofNat 0x3000 || c = Char.ofNat 0xfeff

/-- Model of JavaScript `s.trim()`: remove leading and trailing whitespace. -/
def jsTrim (s : String) : String :=
  ⟨((s.data.dropWhile jsWhitespace).reverse.dropWhile jsWhitespace).reverse⟩

/-- Model of JavaScript `s.startsWith(p)`. -/
def jsStartsWith (s p : String) : Bool :=
  p.data.isPrefixOf s.data

/-! ### Model of the `new URL` builtin (WHATWG basic URL parser)

The source reads only `protocol` and `hostname` from the parsed URL, so the
model below computes exactly those two fields, following the WHATWG URL
Standard's basic URL parser for absolute URLs (no base).  Simplifications:
percent-decoding and IDNA processing of hosts are not performed (ASCII
letters of a special-scheme host are lowercased verbatim), and a bracketed
IPv6 host is accepted without validating its inside.  None of the inputs
arising in this development exercise those features. -/

def isAsciiAlpha (c : Char) : Bool :=
  ('a' ≤ c && c ≤ 'z') || ('A' ≤ c && c ≤ 'Z')

def isAsciiDigit (c : Char) : Bool :=
  '0' ≤ c && c ≤ '9'

def asciiLower (c : Char) : Char :=
  if 'A' ≤ c && c ≤ 'Z' then Char.ofNat (c.toNat + 32) else c

def c0ControlOrSpace (c : Char) : Bool :=
  c.toNat ≤ 0x20

def asciiTabOrNewline (c : Char) : Bool :=
  c = '\t' || c = '\n' || c = '\r'

/-- Input preprocessing of the basic URL parser: strip leading and trailing
C0 controls and spaces, then remove every ASCII tab or newline. -/
def urlPreprocess (l : List Char) : List Char :=
  (((l.dropWhile c0ControlOrSpace).reverse.dropWhile c0ControlOrSpace).reverse).filter
    (fun c => !asciiTabOrNewline c)

def schemeRestChar (c : Char) : Bool :=
  isAsciiAlpha c || isAsciiDigit c || c = '+' || c = '-' || c = '.'

/-- Splits the characters before the first colon from the rest, failing
unless all of them are valid scheme characters followed by a colon. -/
def schemeTailSplit : List Char → Option (List Char × List Char)
  | [] => none
  | c :: cs =>
    if c = ':' then some ([], cs)
    else if schemeRestChar c then (schemeTailSplit cs).map (fun p => (c :: p.1, p.2))
    else none

/-- Splits a URL string into its scheme and the remainder after the colon;
fails when the string does not start with a valid scheme. -/
def schemeSplit : List Char → Option (List Char × List Char)
  | [] => none
  | c :: cs =>
    if isAsciiAlpha c then (schemeTailSplit cs).map (fun p => (c :: p.1, p.2))
    else none

def isSpecialScheme (s : List Char) : Bool :=
  s == "http".data || s == "https".data || s == "ws".data || s == "wss".data ||
  s == "ftp".data || s == "file".data

/-- Forbidden host code points of the URL Standard. -/
def forbiddenHostChar (c : Char) : Bool :=
  c = Char.ofNat 0 || c = '\t' || c = '\n' || c = '\r' || c = ' ' || c = '#' ||
  c = '/' || c = ':' || c = '<' || c = '>' || c = '?' || c = '@' || c = '[' ||
  c = '\\' || c = ']' || c = '^' || c = '|'

/-- Breaks a list at the first occurrence of `sep`: returns the part before
it and, when `sep` occurs, the part after it. -/
def breakAtChar (sep : Char) : List Char → List Char × Option (List Char)
  | [] => ([], none)
  | c :: cs =>
    if c = sep then ([], some cs)
    else
      let p := breakAtChar sep cs
      (c :: p.1, p.2)

/-- The characters after the last `'@'`, or the whole list when there is
none (the URL parser treats everything before the last `'@'` of an
authority as userinfo). -/
def afterLastAt (l : List Char) : List Char :=
  l.foldl (fun acc c => if c = '@' then [] else acc ++ [c]) []

/-- Splits an authority remainder into host characters and the characters
of an optional port, honoring an IPv6 bracket group; the port part is `[]`
when no port is present. -/
def hostPortSplit (l : List Char) : Option (List Char × List Char) :=
  match l with
  | '[' :: cs =>
    match breakAtChar ']' cs with
    | (_, none) => none
    | (inner, some rest) =>
      match rest with
      | [] => some ('[' :: inner ++ [']'], [])
      | ':' :: p => some ('[' :: inner ++ [']'], p)
      | _ => none
  | _ =>
    match breakAtChar ':' l with
    | (h, none) => some (h, [])
    | (h, some p) => some (h, p)

/-- A port is valid when absent, or all ASCII digits with value at most
65535. -/
def portOk (p : List Char) : Bool :=
  p.isEmpty ||
    (p.all isAsciiDigit && p.foldl (fun n c => n * 10 + (c.toNat - 48)) 0 ≤ 65535)

/-- Host parsing for special schemes: the host must be non-empty (except
for `file`), contain no forbidden host code point, and is ASCII-lowercased. -/
def parseSpecialHost (scheme : List Char) (h : List Char) : Option (List Char) :=
  if h.isEmpty then
    if scheme == "file".data then some [] else none
  else if h.head? = some '[' then some h
  else if h.any forbiddenHostChar then none
  else some (h.map asciiLower)

/-- Opaque-host parsing for non-special schemes: may be empty, no forbidden
host code point, case preserved. -/
def parseOpaqueHost (h : List Char) : Option (List Char) :=
  if h.any forbiddenHostChar then none else some h

structure URLParts where
  protocol : String
  hostname : String
  deriving DecidableEq, Repr

/-- Model of `new URL(input)` restricted to the `protocol` and `hostname`
fields; `none` models the constructor throwing. -/
def parseURL (input : String) : Option URLParts :=
  let l := urlPreprocess input.data
  match schemeSplit l with
  | none => none
  | some (rawScheme, rest) =>
    let scheme := rawScheme.map asciiLower
    let protocol := String.mk (scheme ++ [':'])
    if isSpecialScheme scheme then
      let afterSlashes := rest.dropWhile (fun c => c = '/' || c = '\\')
      let auth := afterSlashes.takeWhile (fun c => !(c = '/' || c = '\\' || c = '?' || c = '#'))
      match hostPortSplit (afterLastAt auth) with
      | none => none
      | some (hostChars, portChars) =>
        if !portOk portChars then none
        else
          match parseSpecialHost scheme hostChars with
          | none => none
          | some h => some ⟨protocol, String.mk h⟩
    else
      match rest with
      | '/' :: '/' :: rest2 =>
        let auth := rest2.takeWhile (fun c => !(c = '/' || c = '?' || c = '#'))
        match hostPortSplit (afterLastAt auth) with
        | none => none
        | some (hostChars, portChars) =>
          if !portOk portChars then none
          else
            match parseOpaqueHost hostChars with
            | none => none
            | some h => some ⟨protocol, String.mk h⟩
      | _ => some ⟨protocol, ""⟩

/-! ### The utilities of `src/utils/index.ts` -/

structure ValidationResult where
  isValid : Bool
  error : Option String
  deriving DecidableEq, Repr

/-- The argument the source passes to `new URL` inside `validateUrl`: the
url itself when it starts with "http", otherwise the url prefixed with
"https://". -/
def coerceForParse (url : String) : String :=
  if jsStartsWith url "http" then url else "https://" ++ url

/-- Model of `validateUrl` from `src/utils/index.ts`. -/
def validateUrl (url : String) : ValidationResult :=
  if jsTrim url = "" then ⟨false, some "URL is required"⟩
  else
    match parseURL (coerceForParse url) with
    | none => ⟨false, some "Invalid URL format"⟩
    | some u =>
      if !(["http:", "https:"].contains u.protocol) then
        ⟨false, some "URL must use HTTP or HTTPS protocol"⟩
      else if u.hostname = "" ∨ u.hostname.length < 3 then
        ⟨false, some "Invalid domain name"⟩
      else ⟨true, none⟩

/-- Model of `normalizeUrl` from `src/utils/index.ts`. -/
def normalizeUrl (url : String) : String :=
  if !(jsStartsWith url "http") then "https://" ++ url else url

/-- Model of `calculateReadingTime` from `src/utils/index.ts`:
`Math.ceil(wordCount / 200)`. -/
def calculateReadingTime (wordCount : ℚ) : ℤ :=
  ⌈wordCount / 200⌉

/-- Model of `getScoreColor` from `src/utils/index.ts`. -/
def getScoreColor (score : ℚ) : String :=
  if score ≥ 80 then "text-success-600"
  else if score ≥ 60 then "text-warning-600"
  else "text-error-600"

/-- Model of `getScoreBgColor` from `src/utils/index.ts`. -/
def getScoreBgColor (score : ℚ) : String :=
  if score ≥ 80 then "bg-success-50"
  else if score ≥ 60 then "bg-warning-50"
  else "bg-error-50"

/-! ### The data model of `src/types` as used by the mock data -/

inductive SuggestionType
  | critical
  | warning
  | info
  deriving DecidableEq, Repr

inductive Impact
  | high
  | medium
  | low
  deriving DecidableEq, Repr

structure MetadataInfo where
  title : String
  description : String
  titleLength : ℤ
  descriptionLength : ℤ
  deriving DecidableEq, Repr

structure HeadingsInfo where
  h1Count : ℤ
  h1Text : List String
  h2Count : ℤ
  h3Count : ℤ
  deriving DecidableEq, Repr

structure ContentInfo where
  wordCount : ℤ
  readingTime : ℤ
  imageCount : ℤ
  altTextMissing : ℤ
  deriving DecidableEq, Repr

structure KeywordStat where
  keyword : String
  frequency : ℤ
  density : ℚ
  deriving DecidableEq, Repr

structure PageSpeedMetrics where
  fcp : ℚ
  lcp : ℚ
  cls : ℚ
  ttfb : ℚ
  deriving DecidableEq, Repr

structure PageSpeedInfo where
  score : ℤ
  metrics : PageSpeedMetrics
  deriving DecidableEq, Repr

structure Suggestion where
  type : SuggestionType
  message : String
  impact : Impact
  deriving DecidableEq, Repr

structure SeoAnalysisResult where
  url : String
  timestamp : String
  metadata : MetadataInfo
  headings : HeadingsInfo
  content : ContentInfo
  keywords : List KeywordStat
  pageSpeed : PageSpeedInfo
  suggestions : List Suggestion
  score : ℤ
  deriving DecidableEq, Repr

/-- The value produced by the membership branch `{ ...table[domain], url }`
of the selectors.  When `domain` is an own key of the table the spread
copies the fixture and overrides `url`; but the JS `in` operator also
reports property names inherited from `Object.prototype`, and for such a
`domain` the indexed value is an inherited function (or the prototype
itself), none of whose own properties are enumerable — the spread then
contributes nothing and the result is an object whose only own property is
`url`. -/
inductive MockData
  | full (res : SeoAnalysisResult)
  | urlOnly (url : String)
  deriving DecidableEq, Repr

/-- The shape of `ApiResponse<SeoAnalysisResult>`: either a success carrying
the data (at the declared type, although the degenerate prototype case
actually violates it), or an error carrying code and message. -/
inductive ApiResponse
  | ok (data : MockData)
  | err (code : String) (message : String)
  deriving DecidableEq, Repr

/-! ### The mock fixtures of `src/api/mockData.ts`

Each fixture's `timestamp` field is `new Date().toISOString()` evaluated
once when the module is initialized; the records are therefore
parameterized by that module-initialization time `t0`. -/

def blogRecord (t0 : String) : SeoAnalysisResult where
  url := "https://blog.example.com/web-performance-optimization"
  timestamp := t0
  metadata :=
    { title := "Web Performance Optimization: A Complete Guide"
      description := "Learn essential techniques to optimize your website performance, improve loading times, and enhance user experience with our comprehensive guide."
      titleLength := 45
      descriptionLength := 149 }
  headings :=
    { h1Count := 1
      h1Text := ["Web Performance Optimization: A Complete Guide"]
      h2Count := 6
      h3Count := 12 }
  content :=
    { wordCount := 2150, readingTime := 11, imageCount := 8, altTextMissing := 0 }
  keywords :=
    [ { keyword := "performance", frequency := 23, density := 1.07 },
      { keyword := "optimization", frequency := 18, density := 0.84 },
      { keyword := "loading", frequency := 15, density := 0.70 },
      { keyword := "website", frequency := 12, density := 0.56 },
      { keyword := "speed", frequency := 10, density := 0.47 } ]
  pageSpeed :=
    { score := 92, metrics := { fcp := 1.2, lcp := 2.1, cls := 0.05, ttfb := 0.8 } }
  suggestions :=
    [ { type := SuggestionType.info
        message := "Consider adding structured data markup for better search visibility"
        impact := Impact.medium },
      { type := SuggestionType.info
        message := "Add internal links to related articles to improve site navigation"
        impact := Impact.low } ]
  score := 94

def shopRecord (t0 : String) : SeoAnalysisResult where
  url := "https://shop.example.com/products/wireless-headphones"
  timestamp := t0
  metadata :=
    { title := "Wireless Headphones"
      description := "Buy wireless headphones"
      titleLength := 18
      descriptionLength := 25 }
  headings :=
    { h1Count := 2
      h1Text := ["Wireless Headphones", "Product Details"]
      h2Count := 3
      h3Count := 1 }
  content :=
    { wordCount := 180, readingTime := 1, imageCount := 5, altTextMissing := 3 }
  keywords :=
    [ { keyword := "headphones", frequency := 8, density := 4.44 },
      { keyword := "wireless", frequency := 6, density := 3.33 },
      { keyword := "bluetooth", frequency := 4, density := 2.22 },
      { keyword := "audio", frequency := 3, density := 1.67 },
      { keyword := "music", frequency := 2, density := 1.11 } ]
  pageSpeed :=
    { score := 67, metrics := { fcp := 2.8, lcp := 4.2, cls := 0.15, ttfb := 1.9 } }
  suggestions :=
    [ { type := SuggestionType.critical
        message := "Title tag is too short and not descriptive. Include brand, model, and key features."
        impact := Impact.high },
      { type := SuggestionType.critical
        message := "Meta description is too short and generic. Write compelling copy with product benefits."
        impact := Impact.high },
      { type := SuggestionType.warning
        message := "Multiple H1 tags found. Use only one H1 per page for better SEO."
        impact := Impact.medium },
      { type := SuggestionType.warning
        message := "3 images are missing alt text. Add descriptive alt attributes for accessibility."
        impact := Impact.medium },
      { type := SuggestionType.warning
        message := "Page has very little content. Add detailed product descriptions and specifications."
        impact := Impact.high } ]
  score := 52

def appRecord (t0 : String) : SeoAnalysisResult where
  url := "https://app.example.com/dashboard"
  timestamp := t0
  metadata :=
    { title := "Dashboard"
      description := ""
      titleLength := 9
      descriptionLength := 0 }
  headings :=
    { h1Count := 0
      h1Text := []
      h2Count := 4
      h3Count := 8 }
  content :=
    { wordCount := 45, readingTime := 1, imageCount := 12, altTextMissing := 12 }
  keywords :=
    [ { keyword := "dashboard", frequency := 3, density := 6.67 },
      { keyword := "loading", frequency := 2, density := 4.44 },
      { keyword := "data", frequency := 2, density := 4.44 },
      { keyword := "chart", frequency := 1, density := 2.22 },
      { keyword := "analytics", frequency := 1, density := 2.22 } ]
  pageSpeed :=
    { score := 34, metrics := { fcp := 4.1, lcp := 6.8, cls := 0.28, ttfb := 2.2 } }
  suggestions :=
    [ { type := SuggestionType.critical
        message := "Missing meta description. Add a compelling description for search results."
        impact := Impact.high },
      { type := SuggestionType.critical
        message := "Title tag is too generic. Include specific page purpose and brand name."
        impact := Impact.high },
      { type := SuggestionType.critical
        message := "No H1 tag found. Add a descriptive H1 heading for page hierarchy."
        impact := Impact.high },
      { type := SuggestionType.critical
        message := "All images missing alt text. Critical for accessibility and SEO."
        impact := Impact.high },
      { type := SuggestionType.warning
        message := "Very low content-to-code ratio. Consider server-side rendering for better SEO."
        impact := Impact.high } ]
  score := 28

/-- The lookup table `mockAnalysisData` keyed by hostname (the in-component
`MOCK_RESPONSES` table holds the same three records). -/
def mockAnalysisData (t0 : String) : List (String × SeoAnalysisResult) :=
  [ ("blog.example.com", blogRecord t0),
    ("shop.example.com", shopRecord t0),
    ("app.example.com", appRecord t0) ]

/-! ### The two mock analysis selectors

`Math.random()` is modelled by a parameter `r` with `0 ≤ r < 1` where it
matters; `now` models the wall clock at the time of the call (the functions
never read it, which is exactly what the timestamp claims are about). -/

/-- The property names a plain object literal inherits from
`Object.prototype`: the JS `in` operator reports all of them as present in
the mock tables, in addition to the three own fixture keys. -/
def objectPrototypeKeys : List String :=
  ["constructor", "hasOwnProperty", "isPrototypeOf", "propertyIsEnumerable",
   "toLocaleString", "toString", "valueOf", "__defineGetter__",
   "__defineSetter__", "__lookupGetter__", "__lookupSetter__", "__proto__"]

/-- Model of the JS test `domain in mockAnalysisData` (and
`domain in MOCK_RESPONSES`): true on the three own keys and on every
property name inherited from `Object.prototype`. -/
def jsInMockTable (t0 domain : String) : Bool :=
  (List.lookup domain (mockAnalysisData t0)).isSome ||
    objectPrototypeKeys.contains domain

/-- Model of the spread `{ ...mockAnalysisData[domain], url }` taken in the
membership branch: a full copy of the fixture with `url` overridden when
`domain` is an own key; for an inherited `Object.prototype` member (whose
own properties are all non-enumerable) the spread contributes nothing and
only `url` remains. -/
def spreadTableEntry (t0 domain url : String) : MockData :=
  match List.lookup domain (mockAnalysisData t0) with
  | some rec => MockData.full { rec with url := url }
  | none => MockData.urlOnly url

/-- Model of `mockAnalyzeUrl` from `src/api/mockData.ts` (the simulated
network delay has no observable effect on the returned value and is not
modelled). -/
def mockAnalyzeUrl (t0 now url : String) (r : ℚ) : ApiResponse :=
  match parseURL url with
  | none => ApiResponse.err "INVALID_URL" "The provided URL is invalid or malformed"
  | some u =>
    if jsInMockTable t0 u.hostname then
      ApiResponse.ok (spreadTableEntry t0 u.hostname url)
    else
      let randomScore : ℤ := ⌊r * 40⌋ + 60
      let blog := blogRecord t0
      ApiResponse.ok (MockData.full
        { blog with
          url := url
          score := randomScore
          pageSpeed := { blog.pageSpeed with score := randomScore } })

/-- Model of the in-component `analyzeUrl` of the single-file app: it throws
(here `none`) when `new URL` throws, and in the unknown-domain branch it
randomizes only the top-level `score`, leaving `pageSpeed` untouched. -/
def analyzeUrl (t0 now targetUrl : String) (r : ℚ) : Option MockData :=
  match parseURL targetUrl with
  | none => none
  | some u =>
    if jsInMockTable t0 u.hostname then
      some (spreadTableEntry t0 u.hostname targetUrl)
    else
      some (MockData.full
        { blogRecord t0 with
          url := targetUrl
          score := ⌊r * 40⌋ + 60 })

/-! ### Spec-side definitions used to state refinement and correction claims -/

/-- Modelled from the spec: the single three-way score classification
(`good` / `warning` / `poor`) that both color helpers are claimed to
implement. -/
inductive ScoreClass
  | good
  | warning
  | poor
  deriving DecidableEq, Repr

/-- Modelled from the spec: good if score ≥ 80, warning if 60 ≤ score < 80,
poor if score < 60. -/
def scoreClass (score : ℚ) : ScoreClass :=
  if score ≥ 80 then ScoreClass.good
  else if score ≥ 60 then ScoreClass.warning
  else ScoreClass.poor

def scoreColorOf : ScoreClass → String
  | ScoreClass.good => "text-success-600"
  | ScoreClass.warning => "text-warning-600"
  | ScoreClass.poor => "text-error-600"

def scoreBgOf : ScoreClass → String
  | ScoreClass.good => "bg-success-50"
  | ScoreClass.warning => "bg-warning-50"
  | ScoreClass.poor => "bg-error-50"

/-- Modelled from the spec's phrase "strings missing a scheme": a string
has a scheme when it starts with an ASCII letter followed by scheme
characters and a colon (the scheme syntax of the URL model above). -/
def hasScheme (s : String) : Bool :=
  (schemeSplit s.data).isSome

/-! ### Helper lemmas -/

theorem coerce_eq_normalizeUrl (url : String) : coerceForParse url = normalizeUrl url := by
  cases h : jsStartsWith url "http" <;> simp [coerceForParse, normalizeUrl, h]

/-- Any string of the form `"https://" ++ t` starts with `"http"`. -/
theorem startsWith_http_of_https_append (t : String) :
    jsStartsWith ("https://" ++ t) "http" = true := by
  obtain ⟨td⟩ := t
  rfl

/-- A url accepted by `validateUrl` parses successfully after
normalization (the validator and the selectors hand the same string to
`new URL`). -/
theorem validateUrl_parses {url : String} (h : (validateUrl url).isValid = true) :
    ∃ u, parseURL (normalizeUrl url) = some u := by
  rw [← coerce_eq_normalizeUrl]
  unfold validateUrl at h
  split at h
  · simp at h
  · rcases hp : parseURL (coerceForParse url) with _ | u
    · rw [hp] at h
      simp at h
    · exact ⟨u, rfl⟩

/-- A hostname different from all three fixture keys is not in the mock
data table. -/
theorem lookup_mockData_none (t0 : String) {h : String}
    (hb : h ≠ "blog.example.com") (hs : h ≠ "shop.example.com")
    (ha : h ≠ "app.example.com") :
    List.lookup h (mockAnalysisData t0) = none := by
  have b1 : (h == "blog.example.com") = false := beq_eq_false_iff_ne.mpr hb
  have b2 : (h == "shop.example.com") = false := beq_eq_false_iff_ne.mpr hs
  have b3 : (h == "app.example.com") = false := beq_eq_false_iff_ne.mpr ha
  simp [mockAnalysisData, List.lookup, b1, b2, b3]

/-- Bounds of the synthesized score `Math.floor(Math.random() * 40) + 60`. -/
theorem randomScore_bounds {r : ℚ} (h0 : 0 ≤ r) (h1 : r < 1) :
    60 ≤ ⌊r * 40⌋ + 60 ∧ ⌊r * 40⌋ + 60 < 100 := by
  have hnn : (0 : ℤ) ≤ ⌊r * 40⌋ := Int.floor_nonneg.mpr (by positivity)
  have hlt : ⌊r * 40⌋ < 40 := by
    refine Int.floor_lt.mpr ?_
    push_cast
    linarith [mul_lt_mul_of_pos_right h1 (show (0:ℚ) < 40 by norm_num)]
  omega

/-- The rational ceiling `Math.ceil(n / 200)` agrees with natural-number
ceiling division. -/
theorem readingTime_eq_natDiv (n : ℕ) :
    calculateReadingTime (n : ℚ) = ((n + 199) / 200 : ℕ) := by
  unfold calculateReadingTime
  have h1 : 200 * ((n + 199) / 200) + (n + 199) % 200 = n + 199 :=
    Nat.div_add_mod (n + 199) 200
  have h2 : (n + 199) % 200 ≤ 199 := by omega
  set q := (n + 199) / 200 with hq
  set m := (n + 199) % 200 with hm
  rw [Int.ceil_eq_iff]
  have h1q : (200 : ℚ) * (q : ℚ) + (m : ℚ) = (n : ℚ) + 199 := by exact_mod_cast h1
  have h2q : (m : ℚ) ≤ 199 := by exact_mod_cast h2
  have h3q : (0 : ℚ) ≤ (m : ℚ) := by positivity
  constructor
  · rw [lt_div_iff₀ (show (0:ℚ) < 200 by norm_num)]
    push_cast
    linarith
  · rw [div_le_iff₀ (show (0:ℚ) < 200 by norm_num)]
    push_cast
    linarith

/-! ### The claims -/

/-- C1 (amended): for every parsed URL whose hostname is neither one of the
three fixture keys nor one of the property names inherited from
`Object.prototype` (on which the JS `in` test also succeeds and both
selectors return a degenerate spread carrying only `url`), `mockAnalyzeUrl`
(src/api/mockData.ts) returns a full result whose `score` and
`pageSpeed.score` are equal and both lie in [60, 100); the in-component
`analyzeUrl`, however, randomizes only the overall `score` inside [60, 100)
and leaves `pageSpeed.score` at the blog fixture's 92. -/
theorem claim_C1 (t0 now url : String) (r : ℚ) (u : URLParts)
    (h0 : 0 ≤ r) (h1 : r < 1)
    (hp : parseURL url = some u)
    (hb : u.hostname ≠ "blog.example.com") (hs : u.hostname ≠ "shop.example.com")
    (ha : u.hostname ≠ "app.example.com")
    (hnp : u.hostname ∉ objectPrototypeKeys) :
    (∃ res, mockAnalyzeUrl t0 now url r = ApiResponse.ok (MockData.full res) ∧
      res.score = res.pageSpeed.score ∧ 60 ≤ res.score ∧ res.score < 100) ∧
    (∃ res, analyzeUrl t0 now url r = some (MockData.full res) ∧
      60 ≤ res.score ∧ res.score < 100 ∧ res.pageSpeed.score = 92) := by
  have hlook := lookup_mockData_none t0 hb hs ha
  have hin : jsInMockTable t0 u.hostname = false := by
    simp [jsInMockTable, List.contains, hlook, hnp]
  have hbnd := randomScore_bounds h0 h1
  constructor
  · exact ⟨{ blogRecord t0 with
        url := url
        score := ⌊r * 40⌋ + 60
        pageSpeed := { (blogRecord t0).pageSpeed with score := ⌊r * 40⌋ + 60 } },
      by simp [mockAnalyzeUrl, hp, hin], rfl, hbnd.1, hbnd.2⟩
  · exact ⟨{ blogRecord t0 with url := url, score := ⌊r * 40⌋ + 60 },
      by simp [analyzeUrl, hp, hin], hbnd.1, hbnd.2, rfl⟩

/-- C1, counterexample to the claim as stated, in two independent ways.
First, on the unknown host unknown.example.org the in-component
`analyzeUrl` (one of the cited selector implementations) returns overall
score 60 but pageSpeed score 92 at random draw 0.  Second, the hostname
"constructor" is not one of the three fixed keys, yet the JS `in` operator
finds it on the prototype chain, so both selectors return a degenerate
object carrying only `url` — with no score at all, let alone two equal
scores in [60, 100). -/
theorem claim_C1_counterexample :
    ((parseURL "https://unknown.example.org").map URLParts.hostname =
      some "unknown.example.org" ∧
    List.lookup "unknown.example.org" (mockAnalysisData "T0") = none ∧
    (∃ res, analyzeUrl "T0" "T1" "https://unknown.example.org" 0 =
        some (MockData.full res) ∧
      res.score = 60 ∧ res.pageSpeed.score = 92 ∧ res.score ≠ res.pageSpeed.score)) ∧
    ((parseURL "https://constructor").map URLParts.hostname = some "constructor" ∧
    List.lookup "constructor" (mockAnalysisData "T0") = none ∧
    mockAnalyzeUrl "T0" "T1" "https://constructor" 0 =
      ApiResponse.ok (MockData.urlOnly "https://constructor") ∧
    analyzeUrl "T0" "T1" "https://constructor" 0 =
      some (MockData.urlOnly "https://constructor")) := by
  have hz : (⌊(0 : ℚ) * 40⌋ : ℤ) = 0 := by simp
  have he : analyzeUrl "T0" "T1" "https://unknown.example.org" 0 =
      some (MockData.full
        { blogRecord "T0" with
          url := "https://unknown.example.org"
          score := ⌊(0 : ℚ) * 40⌋ + 60 }) := rfl
  refine ⟨⟨rfl, rfl,
    { blogRecord "T0" with
      url := "https://unknown.example.org"
      score := ⌊(0 : ℚ) * 40⌋ + 60 }, he, ?_, rfl, ?_⟩, rfl, rfl, rfl, rfl⟩
  · show ⌊(0 : ℚ) * 40⌋ + 60 = 60
    rw [hz]
    decide
  · show ⌊(0 : ℚ) * 40⌋ + 60 ≠ 92
    rw [hz]
    decide

/-- C1, witness for the amended theorem at a concrete unknown host. -/
theorem claim_C1_witness :
    (0 ≤ (1/2 : ℚ)) ∧ ((1/2 : ℚ) < 1) ∧
    parseURL "https://unknown.example.org" =
      some ⟨"https:", "unknown.example.org"⟩ ∧
    ("unknown.example.org" : String) ∉ objectPrototypeKeys ∧
    ((∃ res, mockAnalyzeUrl "T0" "T1" "https://unknown.example.org" (1/2) =
        ApiResponse.ok (MockData.full res) ∧
        res.score = res.pageSpeed.score ∧ 60 ≤ res.score ∧ res.score < 100) ∧
      (∃ res, analyzeUrl "T0" "T1" "https://unknown.example.org" (1/2) =
        some (MockData.full res) ∧
        60 ≤ res.score ∧ res.score < 100 ∧ res.pageSpeed.score = 92)) :=
  ⟨by norm_num, by norm_num, by decide, by decide,
    claim_C1 "T0" "T1" "https://unknown.example.org" (1/2)
      ⟨"https:", "unknown.example.org"⟩ (by norm_num) (by norm_num) (by decide)
      (by decide) (by decide) (by decide) (by decide)⟩

/-- C2: evaluation of the code at the claim's input. `validateUrl` prefixes
"ftp://example.com" with "https://" (the input does not start with "http"),
and "https://ftp://example.com" parses with protocol "https:" and hostname
"ftp" (the "ftp:" segment becomes host plus empty port), which has length 3,
so the code returns isValid true — not the protocol error the claim, the
spec and the repository's own test expect. -/
theorem claim_C2_code_eval :
    validateUrl "ftp://example.com" = ⟨true, none⟩ ∧
    (parseURL "https://ftp://example.com").map URLParts.hostname = some "ftp" := by
  exact ⟨by decide, by decide⟩

/-- C3 (amended): for a parsed URL whose hostname is one of the three
fixture keys, both selectors return a copy of the fixture record with `url`
replaced by the caller's URL; every other field is kept, and in particular
the returned `timestamp` is the module-initialization time `t0`, not the
request time. -/
theorem claim_C3 (t0 now url : String) (r : ℚ) (u : URLParts)
    (hp : parseURL url = some u)
    (hk : u.hostname = "blog.example.com" ∨ u.hostname = "shop.example.com" ∨
      u.hostname = "app.example.com") :
    ∃ rec, List.lookup u.hostname (mockAnalysisData t0) = some rec ∧
      mockAnalyzeUrl t0 now url r =
        ApiResponse.ok (MockData.full { rec with url := url }) ∧
      analyzeUrl t0 now url r = some (MockData.full { rec with url := url }) ∧
      ({ rec with url := url } : SeoAnalysisResult).timestamp = t0 := by
  have hlook : ∃ rec, List.lookup u.hostname (mockAnalysisData t0) = some rec ∧
      rec.timestamp = t0 := by
    rcases hk with h | h | h <;> rw [h] <;> exact ⟨_, rfl, rfl⟩
  obtain ⟨rec, hl, hts⟩ := hlook
  refine ⟨rec, hl, ?_, ?_, hts⟩
  · simp [mockAnalyzeUrl, hp, jsInMockTable, spreadTableEntry, hl]
  · simp [analyzeUrl, hp, jsInMockTable, spreadTableEntry, hl]

/-- C3, counterexample to the claim as stated: at module time "T0" and
request time "T1" the selector returns the fixture's timestamp "T0" — the
timestamp is not refreshed to the current time. -/
theorem claim_C3_counterexample :
    mockAnalyzeUrl "T0" "T1" "https://blog.example.com" 0 =
      ApiResponse.ok (MockData.full
        { blogRecord "T0" with url := "https://blog.example.com" }) ∧
    ({ blogRecord "T0" with url := "https://blog.example.com" } :
      SeoAnalysisResult).timestamp = "T0" ∧
    ("T0" : String) ≠ "T1" := by
  exact ⟨rfl, rfl, by decide⟩

/-- C3, witness for the amended theorem at the shop fixture. -/
theorem claim_C3_witness :
    parseURL "https://shop.example.com" = some ⟨"https:", "shop.example.com"⟩ ∧
    ∃ rec, List.lookup (URLParts.hostname ⟨"https:", "shop.example.com"⟩)
        (mockAnalysisData "T0") = some rec ∧
      mockAnalyzeUrl "T0" "T1" "https://shop.example.com" 0 =
        ApiResponse.ok (MockData.full
          { rec with url := "https://shop.example.com" }) ∧
      analyzeUrl "T0" "T1" "https://shop.example.com" 0 =
        some (MockData.full { rec with url := "https://shop.example.com" }) ∧
      ({ rec with url := "https://shop.example.com" } :
        SeoAnalysisResult).timestamp = "T0" :=
  ⟨by decide,
    claim_C3 "T0" "T1" "https://shop.example.com" 0
      ⟨"https:", "shop.example.com"⟩ (by decide) (Or.inr (Or.inl rfl))⟩

/-- C4: a url accepted by `validateUrl` never sends the selectors into the
invalid-URL error path: `mockAnalyzeUrl` on the normalized url returns a
success, and the in-component `analyzeUrl` does not throw. -/
theorem claim_C4 (t0 now s : String) (r : ℚ)
    (hv : (validateUrl s).isValid = true) :
    (∃ res, mockAnalyzeUrl t0 now (normalizeUrl s) r = ApiResponse.ok res) ∧
    (analyzeUrl t0 now (normalizeUrl s) r).isSome = true := by
  obtain ⟨u, hu⟩ := validateUrl_parses hv
  cases hin : jsInMockTable t0 u.hostname with
  | true =>
    exact ⟨⟨spreadTableEntry t0 u.hostname (normalizeUrl s),
        by simp [mockAnalyzeUrl, hu, hin]⟩,
      by simp [analyzeUrl, hu, hin]⟩
  | false =>
    exact ⟨⟨MockData.full
        { blogRecord t0 with
          url := normalizeUrl s
          score := ⌊r * 40⌋ + 60
          pageSpeed := { (blogRecord t0).pageSpeed with score := ⌊r * 40⌋ + 60 } },
      by simp [mockAnalyzeUrl, hu, hin]⟩,
      by simp [analyzeUrl, hu, hin]⟩

/-- C4, witness at a concrete validated input. -/
theorem claim_C4_witness :
    (validateUrl "shop.example.com").isValid = true ∧
    ((∃ res, mockAnalyzeUrl "T0" "T1" (normalizeUrl "shop.example.com") 0 =
        ApiResponse.ok res) ∧
      (analyzeUrl "T0" "T1" (normalizeUrl "shop.example.com") 0).isSome = true) :=
  ⟨by decide, claim_C4 "T0" "T1" "shop.example.com" 0 (by decide)⟩

/-- C5 (amended): every non-empty scheme-less string that moreover does not
start with the four characters "http" is returned by `normalizeUrl` with
exactly the prefix "https://". -/
theorem claim_C5 (s : String) (hne : s ≠ "") (hsch : hasScheme s = false)
    (hpre : jsStartsWith s "http" = false) :
    normalizeUrl s = "https://" ++ s := by
  simp [normalizeUrl, hpre]

/-- C5, counterexample to the claim as stated: "httpfoo.com" is non-empty
and lacks a scheme, yet `normalizeUrl` returns it unchanged because the
code's test is the textual prefix "http", not the presence of a scheme. -/
theorem claim_C5_counterexample :
    "httpfoo.com" ≠ "" ∧ hasScheme "httpfoo.com" = false ∧
    normalizeUrl "httpfoo.com" ≠ "https://" ++ "httpfoo.com" := by
  refine ⟨by decide, by decide, by decide⟩

/-- C5, witness for the amended theorem. -/
theorem claim_C5_witness :
    "example.com" ≠ "" ∧ hasScheme "example.com" = false ∧
    jsStartsWith "example.com" "http" = false ∧
    normalizeUrl "example.com" = "https://" ++ "example.com" :=
  ⟨by decide, by decide, by decide,
    claim_C5 "example.com" (by decide) (by decide) (by decide)⟩

/-- C6: on every input that is empty or all whitespace, `validateUrl` fails
with "URL is required"; in particular on "" and on "   ". -/
theorem claim_C6 :
    (∀ s : String, s.data.all jsWhitespace = true →
      validateUrl s = ⟨false, some "URL is required"⟩) ∧
    validateUrl "" = ⟨false, some "URL is required"⟩ ∧
    validateUrl "   " = ⟨false, some "URL is required"⟩ := by
  refine ⟨?_, by decide, by decide⟩
  intro s hall
  have hdw : s.data.dropWhile jsWhitespace = [] :=
    List.dropWhile_eq_nil_iff.mpr (by simpa [List.all_eq_true] using hall)
  have ht : jsTrim s = "" := by
    unfold jsTrim
    rw [hdw]
    rfl
  simp [validateUrl, ht]

/-- C6, witness at the all-whitespace input. -/
theorem claim_C6_witness :
    "   ".data.all jsWhitespace = true ∧
    validateUrl "   " = ⟨false, some "URL is required"⟩ :=
  ⟨by decide, claim_C6.1 "   " (by decide)⟩

/-- C7: `calculateReadingTime` returns the ceiling of wordCount / 200
(equivalently, ceiling division on naturals), and in particular maps
200 to 1, 400 to 2, 150 to 1 and 0 to 0. -/
theorem claim_C7 (n : ℕ) :
    calculateReadingTime (n : ℚ) = ⌈(n : ℚ) / 200⌉ ∧
    calculateReadingTime (n : ℚ) = ((n + 199) / 200 : ℕ) ∧
    calculateReadingTime 200 = 1 ∧ calculateReadingTime 400 = 2 ∧
    calculateReadingTime 150 = 1 ∧ calculateReadingTime 0 = 0 := by
  refine ⟨rfl, readingTime_eq_natDiv n, ?_, ?_, ?_, ?_⟩ <;>
    · unfold calculateReadingTime
      rw [Int.ceil_eq_iff]
      norm_num

/-- C8: the text-color helper and the background-color helper both factor
through the same three-way classifier with identical thresholds: good iff
score ≥ 80, warning iff 60 ≤ score < 80, poor iff score < 60. -/
theorem claim_C8 (s : ℚ) :
    getScoreColor s = scoreColorOf (scoreClass s) ∧
    getScoreBgColor s = scoreBgOf (scoreClass s) ∧
    (scoreClass s = ScoreClass.good ↔ 80 ≤ s) ∧
    (scoreClass s = ScoreClass.warning ↔ 60 ≤ s ∧ s < 80) ∧
    (scoreClass s = ScoreClass.poor ↔ s < 60) := by
  by_cases h80 : (80 : ℚ) ≤ s
  · have h1 : ¬ s < 80 := not_lt.mpr h80
    have h2 : ¬ s < 60 := by linarith
    simp [getScoreColor, getScoreBgColor, scoreClass, scoreColorOf, scoreBgOf,
      ge_iff_le, h80, h1, h2]
  · by_cases h60 : (60 : ℚ) ≤ s
    · have h1 : s < 80 := not_le.mp h80
      have h2 : ¬ s < 60 := not_lt.mpr h60
      simp [getScoreColor, getScoreBgColor, scoreClass, scoreColorOf, scoreBgOf,
        ge_iff_le, h80, h60, h1, h2]
    · have h1 : s < 60 := not_le.mp h60
      have h2 : s < 80 := by linarith
      simp [getScoreColor, getScoreBgColor, scoreClass, scoreColorOf, scoreBgOf,
        ge_iff_le, h80, h60, h1, h2]

/-- C9: the end-to-end scenario for shop.example.com: validation succeeds,
normalization yields https://shop.example.com, and the selector returns the
shop fixture (url replaced) with overall score 52, titleLength 18,
h1Count 2, and exactly 5 suggestions whose first two are critical. -/
theorem claim_C9 (t0 now : String) (r : ℚ) :
    (validateUrl "shop.example.com").isValid = true ∧
    normalizeUrl "shop.example.com" = "https://shop.example.com" ∧
    ∃ res, mockAnalyzeUrl t0 now "https://shop.example.com" r =
        ApiResponse.ok (MockData.full res) ∧
      res.score = 52 ∧
      res.metadata.titleLength = 18 ∧
      res.headings.h1Count = 2 ∧
      res.suggestions.length = 5 ∧
      (res.suggestions.map Suggestion.type).take 2 =
        [SuggestionType.critical, SuggestionType.critical] :=
  ⟨by decide, by decide,
    { shopRecord t0 with url := "https://shop.example.com" },
    rfl, rfl, rfl, rfl, rfl, rfl⟩

/-- C10: `normalizeUrl` is idempotent, because its output always starts
with the four characters "http". -/
theorem claim_C10 (s : String) :
    jsStartsWith (normalizeUrl s) "http" = true ∧
    normalizeUrl (normalizeUrl s) = normalizeUrl s := by
  have idfix : ∀ t : String, jsStartsWith t "http" = true → normalizeUrl t = t :=
    fun t ht => by simp [normalizeUrl, ht]
  cases h : jsStartsWith s "http" with
  | true =>
    have hn := idfix s h
    exact ⟨by rw [hn]; exact h, by rw [hn]; exact hn⟩
  | false =>
    have hn : normalizeUrl s = "https://" ++ s := by simp [normalizeUrl, h]
    refine ⟨?_, ?_⟩
    · rw [hn]
      exact startsWith_http_of_https_append s
    · rw [hn]
      exact idfix _ (startsWith_http_of_https_append s)
